import Mathlib

/-!
Verification development for the llm-council backend.

The Python sources under backend/ are shallowly embedded as Lean
definitions: pure code becomes Lean functions, effectful code becomes
explicit state passing, awaited collaborator calls become values of
Except (an error marks the call raising an exception), and generator
yields become accumulated lists of events.  The modules council.py and
storage.py are imported by the backend but are not part of the provided
sources; where a definition depends on them it is modelled from the
specification and its doc comment says so.
-/

/- ===== Council data model (types produced by backend/council.py) ===== -/

deriving instance DecidableEq for Except

/-- One council model answer from Stage 1: the model identifier together
with either the answer text or a failure reason. -/
structure ModelAnswer where
  model : String
  result : Except String String
deriving DecidableEq, Repr

/-- One ranking submission from Stage 2: the rater model together with
either an ordered list of labels (best to worst) or a failure reason. -/
structure RankingSubmission where
  model : String
  ranking : Except String (List String)
deriving DecidableEq, Repr

/-- Stage 3 synthesis output: chairman model and final response text. -/
structure Stage3Result where
  model : String
  response : String
deriving DecidableEq, Repr

abbrev Stage1Results := List ModelAnswer
abbrev Stage2Results := List RankingSubmission

/-- Label to model mapping generated once per turn, in label order. -/
abbrev LabelToModel := List (String × String)

/-- Modelled from the spec: calculate_aggregate_rankings lives in
backend/council.py, which is not among the provided sources.  Per spec
section 4.2 step D, each label receives points equal to the number of
labels minus its position in a valid submission; invalid submissions
contribute nothing. -/
def label_points (subs : Stage2Results) (label : String) : Nat :=
  subs.foldl
    (fun acc sub =>
      match sub.ranking with
      | Except.error _ => acc
      | Except.ok labels =>
        match labels.indexOf? label with
        | none => acc
        | some i => acc + (labels.length - i))
    0

/-- Stable descending insertion by score (later elements never pass
earlier ones on a tie, keeping the Stage 1 order as the tie break). -/
def insertByScoreDesc (x : String × Nat) : List (String × Nat) → List (String × Nat)
  | [] => [x]
  | y :: ys => if x.2 ≤ y.2 then y :: insertByScoreDesc x ys else x :: y :: ys

/-- Stable descending sort by score. -/
def sortByScoreDesc (l : List (String × Nat)) : List (String × Nat) :=
  l.foldr insertByScoreDesc []

/-- Modelled from the spec: backend/council.py is not among the provided
sources.  Reduces all ranking submissions to one aggregate ranking:
positional points summed per label, mapped to model identifiers through
the label map, ranked by total descending with ties broken by the
original Stage 1 ordering (spec section 4.2 step D). -/
def calculate_aggregate_rankings (subs : Stage2Results) (l2m : LabelToModel) :
    List (String × Nat) :=
  sortByScoreDesc (l2m.map (fun p => (p.2, label_points subs p.1)))

/- ===== Streaming endpoint (backend/main.py, event_generator) ===== -/

/-- Events emitted by the server-sent event stream of
send_message_stream in backend/main.py. -/
inductive StreamEvent where
  | stage1_start
  | stage1_complete (data : Stage1Results)
  | stage2_start
  | stage2_complete (data : Stage2Results) (label_to_model : LabelToModel)
      (aggregate_rankings : List (String × Nat))
  | stage3_start
  | stage3_complete (data : Stage3Result)
  | title_complete (title : String)
  | complete
  | error (message : String)
deriving DecidableEq, Repr

/-- Outcomes of the awaited collaborator calls made inside
event_generator, in program order.  An Except.error value means that
call raised an exception, which the generator catches and turns into a
single error event. -/
structure StreamEnv where
  is_first_message : Bool
  add_user_message : Except String Unit
  stage1 : Except String Stage1Results
  stage2 : Except String (Stage2Results × LabelToModel)
  stage3 : Except String Stage3Result
  title : Except String String
  update_title : Except String Unit
  add_assistant_message : Except String Unit

/-- Tail of the generator after stage 3: persist the assistant message
and emit the terminal complete event (backend/main.py lines 338 to 347). -/
def event_generator_finish (env : StreamEnv) : List StreamEvent :=
  match env.add_assistant_message with
  | Except.error e => [StreamEvent.error e]
  | Except.ok _ => [StreamEvent.complete]

/-- Title handling after stage 3: await the title task when it was
started, update the stored title, emit title_complete, then finish
(backend/main.py lines 332 to 336). -/
def event_generator_title (env : StreamEnv) : List StreamEvent :=
  if env.is_first_message then
    match env.title with
    | Except.error e => [StreamEvent.error e]
    | Except.ok t =>
      match env.update_title with
      | Except.error e => [StreamEvent.error e]
      | Except.ok _ => StreamEvent.title_complete t :: event_generator_finish env
  else
    event_generator_finish env

/-- Embedding of event_generator in backend/main.py lines 306 to 351:
the try body yields stage events in order around each awaited call; the
except clause turns the first exception into one error event, ending
the stream. -/
def event_generator (env : StreamEnv) : List StreamEvent :=
  match env.add_user_message with
  | Except.error e => [StreamEvent.error e]
  | Except.ok _ =>
    StreamEvent.stage1_start ::
    match env.stage1 with
    | Except.error e => [StreamEvent.error e]
    | Except.ok s1 =>
      StreamEvent.stage1_complete s1 :: StreamEvent.stage2_start ::
      match env.stage2 with
      | Except.error e => [StreamEvent.error e]
      | Except.ok (s2, l2m) =>
        StreamEvent.stage2_complete s2 l2m (calculate_aggregate_rankings s2 l2m) ::
        StreamEvent.stage3_start ::
        match env.stage3 with
        | Except.error e => [StreamEvent.error e]
        | Except.ok s3 =>
          StreamEvent.stage3_complete s3 :: event_generator_title env

/-- Position of a stage event in the canonical stage sequence; none for
events that are not stage events. -/
def stageTag : StreamEvent → Option Nat
  | StreamEvent.stage1_start => some 0
  | StreamEvent.stage1_complete _ => some 1
  | StreamEvent.stage2_start => some 2
  | StreamEvent.stage2_complete _ _ _ => some 3
  | StreamEvent.stage3_start => some 4
  | StreamEvent.stage3_complete _ => some 5
  | _ => none

/-- Projection of an event list to the tags of its stage events. -/
def stageTags (l : List StreamEvent) : List Nat :=
  l.filterMap stageTag

/-- Terminal events are complete and error; the stream ends on them. -/
def isTerminal : StreamEvent → Bool
  | StreamEvent.complete => true
  | StreamEvent.error _ => true
  | _ => false

/-- Decides whether the first list is an initial segment of the second. -/
def isInitialSegmentOf : List Nat → List Nat → Bool
  | [], _ => true
  | _ :: _, [] => false
  | a :: as, b :: bs => a == b && isInitialSegmentOf as bs

/-- Success predicate on a stream environment: no awaited call raised. -/
def streamSuccess (env : StreamEnv) : Bool :=
  env.add_user_message.toBool && env.stage1.toBool && env.stage2.toBool &&
    env.stage3.toBool &&
    (!env.is_first_message || (env.title.toBool && env.update_title.toBool)) &&
    env.add_assistant_message.toBool

/- ===== Stage 1 collector (backend/council.py, absent from sources) ===== -/

/-- Modelled from the spec: stage1_collect_responses lives in
backend/council.py, which is not among the provided sources.  Per spec
sections 4.1 and 5, Stage 1 fans one chat-completion task out per
configured model and gathers the settled results back by task index, the
fixed fan-out barrier reassembling them in the configured order.  The
embedding makes the scheduling explicit: outcome gives each task its
settled result (answer text or failure reason), sched is the order in
which the tasks complete, and the gather step matches each configured
index against the completion list. -/
def stage1_collect_responses (models : List String)
    (outcome : Nat → Except String String) (sched : List Nat) : List ModelAnswer :=
  let completed := sched.map (fun i => (i, ModelAnswer.mk (models.getD i "") (outcome i)))
  (List.range models.length).filterMap
    (fun i => (completed.find? (fun p => p.1 == i)).map (fun p => p.2))

/-- Sample council configuration for evaluating Stage 1 concretely. -/
def sampleModels : List String := ["m1", "m2", "m3"]

/-- Sample per-task outcomes: the second task fails, the rest succeed. -/
def sampleOutcome (i : Nat) : Except String String :=
  if i == 1 then Except.error "timeout" else Except.ok "answer"

/- ===== Title generation scheduling (three delivery surfaces) ===== -/

/-- Observable actions of one turn, used to compare when the title call
is started and awaited relative to the three stages and persistence. -/
inductive TurnAction where
  | add_user_message
  | title_task_start
  | title_await
  | update_title
  | stage1_run
  | stage2_run
  | stage3_run
  | persist_assistant_message
deriving DecidableEq, Repr

/-- Index of the first occurrence of an action in a trace. -/
def actionIdx (a : TurnAction) : List TurnAction → Nat
  | [] => 0
  | b :: bs => if a == b then 0 else actionIdx a bs + 1

/-- Title related actions. -/
def isTitleAction : TurnAction → Bool
  | TurnAction.title_task_start => true
  | TurnAction.title_await => true
  | TurnAction.update_title => true
  | _ => false

/-- Action trace of the atomic endpoint send_message in backend/main.py
lines 242 to 281: the user message is stored, then for a first message
generate_conversation_title is called and awaited in line (a sequential
await, modelled as a start immediately followed by the await), then the
three stages run via run_full_council, then the assistant message is
persisted. -/
def send_message_trace (is_first : Bool) : List TurnAction :=
  [TurnAction.add_user_message] ++
    (if is_first then
      [TurnAction.title_task_start, TurnAction.title_await, TurnAction.update_title]
    else []) ++
    [TurnAction.stage1_run, TurnAction.stage2_run, TurnAction.stage3_run,
      TurnAction.persist_assistant_message]

/-- Action trace of the streaming endpoint event_generator in
backend/main.py lines 306 to 347 on the success path: the title task is
created before stage 1 and awaited after stage 3, before the assistant
message is persisted. -/
def stream_trace (is_first : Bool) : List TurnAction :=
  [TurnAction.add_user_message] ++
    (if is_first then [TurnAction.title_task_start] else []) ++
    [TurnAction.stage1_run, TurnAction.stage2_run, TurnAction.stage3_run] ++
    (if is_first then [TurnAction.title_await, TurnAction.update_title] else []) ++
    [TurnAction.persist_assistant_message]

/-- Action trace of VoiceChatSession._run_council_process in
backend/voice.py lines 135 to 188 on the success path: the title task is
created before stage 1 but awaited only after the assistant message has
already been persisted. -/
def voice_trace (is_first : Bool) : List TurnAction :=
  [TurnAction.add_user_message] ++
    (if is_first then [TurnAction.title_task_start] else []) ++
    [TurnAction.stage1_run, TurnAction.stage2_run, TurnAction.stage3_run,
      TurnAction.persist_assistant_message] ++
    (if is_first then [TurnAction.title_await, TurnAction.update_title] else [])

/- ===== Conversation storage (backend/storage.py, absent from sources) ===== -/

/-- One stored message: a user message with its text, or an assistant
message holding the three stage payloads of a completed turn. -/
inductive Message where
  | user (content : String)
  | assistant (stage1 : Stage1Results) (stage2 : Stage2Results) (stage3 : Stage3Result)
deriving DecidableEq, Repr

/-- A stored conversation: owner, title, and message history. -/
structure Conversation where
  user_id : String
  title : String
  messages : List Message
deriving DecidableEq, Repr

/-- Conversation store keyed by conversation identifier. -/
abbrev Storage := List (String × Conversation)

/-- Modelled from the spec: backend/storage.py is not among the provided
sources; per spec section 6 the persistence collaborator resolves a
conversation identifier to the stored conversation, or nothing. -/
def get_conversation (st : Storage) (cid : String) : Option Conversation :=
  (st.find? (fun p => p.1 == cid)).map (fun p => p.2)

/-- Applies an update to the conversation with the given identifier. -/
def update_conversation (st : Storage) (cid : String)
    (f : Conversation → Conversation) : Storage :=
  st.map (fun p => if p.1 == cid then (p.1, f p.2) else p)

/-- Modelled from the spec: append-only write of one user message
(spec section 6, append_message). -/
def add_user_message (st : Storage) (cid content : String) : Storage :=
  update_conversation st cid
    (fun c => { c with messages := c.messages ++ [Message.user content] })

/-- Modelled from the spec: append-only write of one assistant message
carrying all three stage payloads (spec section 6, append_message). -/
def add_assistant_message (st : Storage) (cid : String) (s1 : Stage1Results)
    (s2 : Stage2Results) (s3 : Stage3Result) : Storage :=
  update_conversation st cid
    (fun c => { c with messages := c.messages ++ [Message.assistant s1 s2 s3] })

/-- Modelled from the spec: stores the generated conversation title. -/
def update_conversation_title (st : Storage) (cid title : String) : Storage :=
  update_conversation st cid (fun c => { c with title := title })

/- ===== Atomic endpoint send_message (backend/main.py 232 to 281) ===== -/

/-- An HTTPException raised by an endpoint: status code and detail. -/
structure HTTPError where
  status_code : Nat
  detail : String
deriving DecidableEq, Repr

/-- Result of run_full_council (backend/council.py, absent from the
sources): the three stage payloads plus the ranking metadata, taken here
as given values since the claim is about the endpoint around the call. -/
structure CouncilOutcome where
  stage1 : Stage1Results
  stage2 : Stage2Results
  stage3 : Stage3Result
  label_to_model : LabelToModel
  aggregate_rankings : List (String × Nat)
deriving DecidableEq, Repr

/-- Body returned by the atomic endpoint on success. -/
structure SendMessageResponse where
  stage1 : Stage1Results
  stage2 : Stage2Results
  stage3 : Stage3Result
  label_to_model : LabelToModel
  aggregate_rankings : List (String × Nat)
deriving DecidableEq, Repr

/-- Embedding of send_message in backend/main.py lines 232 to 281: the
conversation is resolved (404 when absent), ownership is checked (403 on
mismatch) before any write; otherwise the user message is stored, a
first message gets a title, the council runs to completion, the
assistant message is stored, and the structured response is returned.
The returned Storage is the post-request store; on the error paths it is
the input store unchanged. -/
def send_message (st : Storage) (cid uid content : String)
    (council : CouncilOutcome) (title : String) :
    Storage × Except HTTPError SendMessageResponse :=
  match get_conversation st cid with
  | none => (st, Except.error ⟨404, "Conversation not found"⟩)
  | some conv =>
    if conv.user_id ≠ uid then
      (st, Except.error ⟨403, "Access denied"⟩)
    else
      let st1 := add_user_message st cid content
      let st2 :=
        if conv.messages.length == 0 then update_conversation_title st1 cid title
        else st1
      let st3 := add_assistant_message st2 cid council.stage1 council.stage2 council.stage3
      (st3, Except.ok ⟨council.stage1, council.stage2, council.stage3,
        council.label_to_model, council.aggregate_rankings⟩)

/-- Sample storage holding one conversation owned by user u1. -/
def sampleStorage : Storage :=
  [("c1", ⟨"u1", "New Conversation", []⟩)]

/-- Sample council outcome for concrete evaluation. -/
def sampleCouncil : CouncilOutcome :=
  ⟨[⟨"m1", Except.ok "a1"⟩], [⟨"m1", Except.ok ["Response A"]⟩],
    ⟨"chair", "final"⟩, [("Response A", "m1")], [("m1", 1)]⟩

/-- Sample environment in which every awaited call succeeds. -/
def sampleStreamEnv : StreamEnv where
  is_first_message := true
  add_user_message := Except.ok ()
  stage1 := Except.ok [⟨"m1", Except.ok "a1"⟩, ⟨"m2", Except.error "timeout"⟩]
  stage2 := Except.ok ([⟨"m1", Except.ok ["Response A"]⟩], [("Response A", "m1")])
  stage3 := Except.ok ⟨"chair", "final"⟩
  title := Except.ok "Title"
  update_title := Except.ok ()
  add_assistant_message := Except.ok ()

/- ===== User records (backend/users.py) ===== -/

/-- One row of the users table (backend/users.py, ensure_db). -/
structure UserRow where
  id : String
  email : String
  password_hash : String
  name : String
  is_admin : Bool
  created_at : String
deriving DecidableEq, Repr

abbrev UsersDb := List UserRow

/-- A JSON-like field value appearing in a returned user dictionary. -/
inductive JsonValue where
  | str (s : String)
  | bool (b : Bool)
deriving DecidableEq, Repr

/-- Dictionary with every column, as selected by get_user_by_email in
backend/users.py lines 111 to 134 (includes password_hash). -/
def row_full_dict (r : UserRow) : List (String × JsonValue) :=
  [("id", JsonValue.str r.id), ("email", JsonValue.str r.email),
    ("password_hash", JsonValue.str r.password_hash),
    ("name", JsonValue.str r.name), ("is_admin", JsonValue.bool r.is_admin),
    ("created_at", JsonValue.str r.created_at)]

/-- Dictionary with the public columns only, as selected by
get_user_by_id and list_users in backend/users.py (no password_hash). -/
def row_public_dict (r : UserRow) : List (String × JsonValue) :=
  [("id", JsonValue.str r.id), ("email", JsonValue.str r.email),
    ("name", JsonValue.str r.name), ("is_admin", JsonValue.bool r.is_admin),
    ("created_at", JsonValue.str r.created_at)]

/-- Embedding of get_user_by_id in backend/users.py lines 85 to 108: the
SELECT lists id, email, name, is_admin, created_at only. -/
def get_user_by_id (db : UsersDb) (uid : String) : Option (List (String × JsonValue)) :=
  (db.find? (fun r => r.id == uid)).map row_public_dict

/-- Embedding of get_user_by_email in backend/users.py lines 111 to
134: the SELECT includes password_hash for password verification. -/
def get_user_by_email (db : UsersDb) (email : String) :
    Option (List (String × JsonValue)) :=
  (db.find? (fun r => r.email == email)).map row_full_dict

/-- Stable insertion keeping later creation dates first, embedding the
ORDER BY created_at DESC of list_users. -/
def insertByCreatedDesc (x : UserRow) : List UserRow → List UserRow
  | [] => [x]
  | y :: ys => if x.created_at ≤ y.created_at then y :: insertByCreatedDesc x ys
      else x :: y :: ys

/-- Embedding of list_users in backend/users.py lines 137 to 153: all
rows ordered by created_at descending, each projected to the public
columns (no password_hash). -/
def list_users (db : UsersDb) : List (List (String × JsonValue)) :=
  (db.foldr insertByCreatedDesc []).map row_public_dict

/- ===== Login endpoint (backend/main.py 123 to 139) ===== -/

/-- Body returned by the login endpoint: token plus user dictionary. -/
structure LoginResult where
  token : String
  user : List (String × JsonValue)
deriving DecidableEq, Repr

/-- String looked up in a user dictionary, empty when absent. -/
def dictStr (d : List (String × JsonValue)) (k : String) : String :=
  match d.lookup k with
  | some (JsonValue.str s) => s
  | _ => ""

/-- Bool looked up in a user dictionary, false when absent. -/
def dictBool (d : List (String × JsonValue)) (k : String) : Bool :=
  match d.lookup k with
  | some (JsonValue.bool b) => b
  | _ => false

/-- Embedding of login in backend/main.py lines 123 to 139: look the
user up by email (includes the hash), verify the password through the
bcrypt collaborator checkpw, build a token through the collaborator
make_token, and return the user dictionary with the password_hash entry
removed.  Both failure paths raise 401 with the same detail. -/
def login (db : UsersDb) (email password : String)
    (checkpw : String → String → Bool)
    (make_token : String → String → Bool → String) : Except HTTPError LoginResult :=
  match get_user_by_email db email with
  | none => Except.error ⟨401, "Invalid email or password"⟩
  | some user =>
    if checkpw password (dictStr user "password_hash") then
      Except.ok ⟨make_token (dictStr user "id") (dictStr user "email") (dictBool user "is_admin"),
        user.filter (fun kv => kv.1 ≠ "password_hash")⟩
    else
      Except.error ⟨401, "Invalid email or password"⟩

/-- Sample user database with two users. -/
def sampleDb : UsersDb :=
  [⟨"u1", "a@x", "hash1", "Alice", true, "2024-01-02"⟩,
    ⟨"u2", "b@x", "hash2", "Bob", false, "2024-01-01"⟩]

/- ===== Voice endpoint setup (backend/main.py 363 to 406) ===== -/

/-- Decoded token payload as used by the voice endpoint: only the sub
claim is read. -/
structure JwtPayload where
  sub : String
deriving DecidableEq, Repr

/-- Setup outcome of the voice WebSocket endpoint: either the socket is
closed with a close code and reason before any traffic, or the session
is accepted. -/
inductive SetupOutcome where
  | closed (code : Nat) (reason : String)
  | accepted
deriving DecidableEq, Repr

/-- Collaborator results available to the voice endpoint during setup:
the query token, the verify_token result on it, the get_user_by_id
result on the sub claim, the configured provider key, and the stored
conversation. -/
structure VoiceSetupEnv where
  token : Option String
  verify_result : Option JwtPayload
  user_result : Option UserRow
  openai_api_key : String
  conversation : Option Conversation
deriving DecidableEq, Repr

/-- Embedding of the setup phase of voice_chat_endpoint in
backend/main.py lines 363 to 406: each precondition failure closes the
socket with a code and reason before websocket.accept runs; only after
every check passes is the connection accepted. -/
def voice_chat_setup (env : VoiceSetupEnv) (uid_of : UserRow → String) : SetupOutcome :=
  match env.token with
  | none => SetupOutcome.closed 4001 "Authentication required"
  | some t =>
    if t == "" then SetupOutcome.closed 4001 "Authentication required"
    else
      match env.verify_result with
      | none => SetupOutcome.closed 4001 "Invalid token"
      | some _ =>
        match env.user_result with
        | none => SetupOutcome.closed 4001 "User not found"
        | some user =>
          if env.openai_api_key == "" then
            SetupOutcome.closed 4001 "OpenAI API key not configured"
          else
            match env.conversation with
            | none => SetupOutcome.closed 4004 "Conversation not found"
            | some conv =>
              if conv.user_id ≠ uid_of user then SetupOutcome.closed 4003 "Access denied"
              else SetupOutcome.accepted

/-- Sample well formed voice setup environment. -/
def sampleVoiceEnv : VoiceSetupEnv :=
  ⟨some "tok", some ⟨"u1"⟩, some ⟨"u1", "a@x", "hash1", "Alice", true, "2024-01-02"⟩,
    "sk-key", some ⟨"u1", "New Conversation", []⟩⟩

/- ===== Voice chat session (backend/voice.py) ===== -/

/-- State of the realtime transcription sub-connection
(backend/openai_realtime.py): whether the connect succeeded and the
audio payloads forwarded so far. -/
structure RealtimeClientState where
  connected : Bool
  sent_audio : List (List Nat)
deriving DecidableEq, Repr

/-- Mutable state of a VoiceChatSession (backend/voice.py lines 24 to
37): the locally buffered audio chunks, the optional transcription
sub-connection, and the recording flag. -/
structure SessionState where
  audio_chunks : List (List Nat)
  realtime_client : Option RealtimeClientState
  is_recording : Bool
deriving DecidableEq, Repr

/-- Initial session state: no chunks, no sub-connection, not recording. -/
def initialSessionState : SessionState := ⟨[], none, false⟩

/-- Events a VoiceChatSession sends to its client. -/
inductive VoiceEvent where
  | recording_started
  | transcription (text : String)
  | stage1_start
  | stage1_complete (data : Stage1Results)
  | stage2_start
  | stage2_complete (data : Stage2Results) (label_to_model : LabelToModel)
      (aggregate_rankings : List (String × Nat))
  | stage3_start
  | stage3_complete (data : Stage3Result)
  | title_complete (title : String)
  | audio_start
  | audio_response (data : List Nat)
  | audio_complete
  | error (message : String)
deriving DecidableEq, Repr

/-- Embedding of RealtimeClient.send_audio in backend/openai_realtime.py
lines 58 to 73: a no-op unless connected, otherwise the bytes are sent
on the sub-connection. -/
def send_audio (c : RealtimeClientState) (bytes : List Nat) : RealtimeClientState :=
  if c.connected then { c with sent_audio := c.sent_audio ++ [bytes] } else c

/-- Outcomes of the awaited calls made inside _stop_recording, plus the
behaviour of _run_council_process taken as a function of the store.  An
Except.error marks the call raising; council_run returns the events the
council process emits and the store it leaves behind. -/
structure StopEnv where
  commit : Except String Unit
  transcription : Except String (Option String)
  council_run : Storage → List VoiceEvent × Storage

/-- Result of one client message handled by the session: the new session
state, the new store, the events sent to the client, whether
_run_council_process was invoked, and whether the session loop keeps
running. -/
structure StepResult where
  state : SessionState
  storage : Storage
  events : List VoiceEvent
  council_invoked : Bool
  keep_running : Bool

/-- Whitespace characters stripped by the str.strip call of
backend/voice.py line 115. -/
def isSpaceChar (c : Char) : Bool :=
  c == ' ' || c == '\t' || c == '\n' || c == '\r'

/-- The empty-speech test of backend/voice.py line 115: the Python
condition is true when the transcription is absent, empty, or only
whitespace (its strip result is empty exactly when every character is
whitespace). -/
def no_speech (t : Option String) : Bool :=
  match t with
  | none => true
  | some s => s.toList.all isSpaceChar

/-- Embedding of VoiceChatSession._stop_recording in backend/voice.py
lines 94 to 133.  The recording flag is cleared first; with no
sub-connection the session reports an error and nothing else happens.
Otherwise the audio is committed and the transcription awaited inside a
try block whose except clause emits the exception as an error event and
whose finally clause always closes the sub-connection; empty or
whitespace-only transcription emits a no-speech error without invoking
the council; otherwise the transcription event is sent and
_run_council_process runs. -/
def stop_recording (env : StopEnv) (s : SessionState) (st : Storage) : StepResult :=
  let s1 : SessionState := { s with is_recording := false }
  match s1.realtime_client with
  | none => ⟨s1, st, [VoiceEvent.error "No recording session active"], false, true⟩
  | some _ =>
    let closed : SessionState := { s1 with realtime_client := none }
    match env.commit with
    | Except.error e => ⟨closed, st, [VoiceEvent.error e], false, true⟩
    | Except.ok _ =>
      match env.transcription with
      | Except.error e => ⟨closed, st, [VoiceEvent.error e], false, true⟩
      | Except.ok t =>
        if no_speech t then
          ⟨closed, st, [VoiceEvent.error "No speech detected"], false, true⟩
        else
          let r := env.council_run st
          ⟨closed, r.2, VoiceEvent.transcription (t.getD "") :: r.1, true, true⟩

/-- Embedding of VoiceChatSession._start_recording in backend/voice.py
lines 75 to 92: the buffer is reset, the flag set, a client is created
whose connected flag records whether connect succeeded, and either
recording_started or an error event is sent. -/
def start_recording (connect_ok : Bool) (_s : SessionState) (st : Storage) : StepResult :=
  let s1 : SessionState :=
    { audio_chunks := [], is_recording := true,
      realtime_client := some ⟨connect_ok, []⟩ }
  if connect_ok then ⟨s1, st, [VoiceEvent.recording_started], false, true⟩
  else ⟨s1, st, [VoiceEvent.error "Failed to connect to transcription service"], false, true⟩

/-- Client messages of the duplex session protocol. -/
inductive ClientMessage where
  | start_recording
  | audio (data : String)
  | stop_recording
  | close
  | other (t : String)
deriving DecidableEq, Repr

/-- Embedding of VoiceChatSession.handle_message in backend/voice.py
lines 46 to 73.  The b64decode parameter is the base64 decoding
collaborator.  An audio message with a non-empty payload is decoded
once, appended to the local buffer, and forwarded to the sub-connection
when one exists; close ends the loop; unknown types are ignored. -/
def handle_message (b64decode : String → List Nat) (env : StopEnv)
    (connect_ok : Bool) (s : SessionState) (st : Storage) (msg : ClientMessage) :
    StepResult :=
  match msg with
  | ClientMessage.start_recording => start_recording connect_ok s st
  | ClientMessage.audio data =>
    if data == "" then ⟨s, st, [], false, true⟩
    else
      let decoded := b64decode data
      let s1 : SessionState := { s with audio_chunks := s.audio_chunks ++ [decoded] }
      match s1.realtime_client with
      | none => ⟨s1, st, [], false, true⟩
      | some c => ⟨{ s1 with realtime_client := some (send_audio c decoded) },
          st, [], false, true⟩
  | ClientMessage.stop_recording => stop_recording env s st
  | ClientMessage.close => ⟨s, st, [], false, false⟩
  | ClientMessage.other _ => ⟨s, st, [], false, true⟩

/-- Sample stop environment: commit succeeds and the transcription comes
back as whitespace only; the council process would leave the store
unchanged and emit nothing. -/
def sampleStopEnv : StopEnv :=
  ⟨Except.ok (), Except.ok (some "   "), fun st => ([], st)⟩

/-- Sample session state mid-recording with an open sub-connection. -/
def sampleRecordingState : SessionState :=
  ⟨[[1, 2]], some ⟨true, [[1, 2]]⟩, true⟩

/- ===== Token verification (backend/auth.py 65 to 81) ===== -/

/-- Outcome of the jwt.decode collaborator call: the decoded payload for
a token validly signed with the configured secret and unexpired, an
ExpiredSignatureError for an expired one, or an InvalidTokenError (the
base class of every other decode failure in the jwt library) otherwise. -/
inductive JwtDecodeOutcome where
  | ok (payload : List (String × String))
  | expiredSignature
  | invalidToken (msg : String)
deriving DecidableEq, Repr

/-- Embedding of verify_token in backend/auth.py lines 65 to 81 over the
decode outcome.  The result type Except String (Option payload) records
an exception escaping to the caller as Except.error; the two except
clauses cover both decode exception classes, so no outcome escapes. -/
def verify_token (res : JwtDecodeOutcome) :
    Except String (Option (List (String × String))) :=
  match res with
  | JwtDecodeOutcome.ok payload => Except.ok (some payload)
  | JwtDecodeOutcome.expiredSignature => Except.ok none
  | JwtDecodeOutcome.invalidToken _ => Except.ok none

/- ===== Theorems ===== -/

/-- Claim C3, counterexample: on the atomic HTTP surface the title call
is awaited before Stage 1 even begins (send_message, backend/main.py
lines 258 to 260), so it is not awaited only after Stage 3 completes;
and on the voice surface the title task is awaited only after the Turn
has already been persisted (backend/voice.py lines 176 to 187), not just
before.  Both refute the claim as stated at the concrete input of a
first message. -/
theorem title_await_not_after_stage3_on_atomic :
    ¬ (actionIdx TurnAction.stage3_run (send_message_trace true) <
        actionIdx TurnAction.title_await (send_message_trace true)) ∧
    ¬ (actionIdx TurnAction.title_await (voice_trace true) <
        actionIdx TurnAction.persist_assistant_message (voice_trace true)) := by
  decide

/-- Claim C3 (amended): for a first message, the streaming HTTP surface
starts the title task before Stage 1 and awaits it after Stage 3 and
before persisting the Turn; the voice surface starts it before Stage 1
but awaits it only after the Turn is persisted; the atomic HTTP surface
does not run it in parallel at all — it awaits the title call before
Stage 1 begins.  For non-first messages no surface performs any title
action. -/
theorem title_generation_scheduling :
    ((send_message_trace false).all (fun a => !(isTitleAction a)) = true ∧
      (stream_trace false).all (fun a => !(isTitleAction a)) = true ∧
      (voice_trace false).all (fun a => !(isTitleAction a)) = true) ∧
    (actionIdx TurnAction.title_task_start (stream_trace true) <
        actionIdx TurnAction.stage1_run (stream_trace true) ∧
      actionIdx TurnAction.stage3_run (stream_trace true) <
        actionIdx TurnAction.title_await (stream_trace true) ∧
      actionIdx TurnAction.title_await (stream_trace true) <
        actionIdx TurnAction.persist_assistant_message (stream_trace true)) ∧
    (actionIdx TurnAction.title_task_start (voice_trace true) <
        actionIdx TurnAction.stage1_run (voice_trace true) ∧
      actionIdx TurnAction.stage3_run (voice_trace true) <
        actionIdx TurnAction.title_await (voice_trace true) ∧
      actionIdx TurnAction.persist_assistant_message (voice_trace true) <
        actionIdx TurnAction.title_await (voice_trace true)) ∧
    (actionIdx TurnAction.title_task_start (send_message_trace true) <
        actionIdx TurnAction.stage1_run (send_message_trace true) ∧
      actionIdx TurnAction.title_await (send_message_trace true) <
        actionIdx TurnAction.stage1_run (send_message_trace true)) := by
  decide

/-- Claim C5, counterexample: a missing credential and an invalid
credential are different setup failure causes but both close the
connection with the same close code 4001, so there is no distinct close
code per cause; the causes differ only in the reason text. -/
theorem missing_and_invalid_credential_share_close_code :
    voice_chat_setup ⟨none, none, none, "sk-key", none⟩ (fun u => u.id) =
      SetupOutcome.closed 4001 "Authentication required" ∧
    voice_chat_setup ⟨some "bad", none, none, "sk-key", none⟩ (fun u => u.id) =
      SetupOutcome.closed 4001 "Invalid token" := by
  constructor <;> rfl

/-- Claim C5 (amended): every setup failure cause — missing credential,
invalid credential, unknown user, unconfigured provider key, unknown
conversation, ownership mismatch — closes the voice WebSocket before the
session is accepted, each with a fixed close code and reason; the causes
are distinguished by the (code, reason) pair, the code alone being 4001
for the four credential and provider causes, 4004 for an unknown
conversation and 4003 for an ownership mismatch; the session is accepted
only when every check passes. -/
theorem voice_setup_failures_close_connection (env : VoiceSetupEnv)
    (uid_of : UserRow → String) :
    ((env.token = none ∨ env.token = some "") →
      voice_chat_setup env uid_of = SetupOutcome.closed 4001 "Authentication required") ∧
    (∀ t, env.token = some t → t ≠ "" → env.verify_result = none →
      voice_chat_setup env uid_of = SetupOutcome.closed 4001 "Invalid token") ∧
    (∀ t p, env.token = some t → t ≠ "" → env.verify_result = some p →
      env.user_result = none →
      voice_chat_setup env uid_of = SetupOutcome.closed 4001 "User not found") ∧
    (∀ t p u, env.token = some t → t ≠ "" → env.verify_result = some p →
      env.user_result = some u → env.openai_api_key = "" →
      voice_chat_setup env uid_of = SetupOutcome.closed 4001 "OpenAI API key not configured") ∧
    (∀ t p u, env.token = some t → t ≠ "" → env.verify_result = some p →
      env.user_result = some u → env.openai_api_key ≠ "" → env.conversation = none →
      voice_chat_setup env uid_of = SetupOutcome.closed 4004 "Conversation not found") ∧
    (∀ t p u conv, env.token = some t → t ≠ "" → env.verify_result = some p →
      env.user_result = some u → env.openai_api_key ≠ "" → env.conversation = some conv →
      conv.user_id ≠ uid_of u →
      voice_chat_setup env uid_of = SetupOutcome.closed 4003 "Access denied") ∧
    (voice_chat_setup env uid_of = SetupOutcome.accepted →
      env.token ≠ none ∧ env.verify_result ≠ none ∧ env.user_result ≠ none ∧
        env.openai_api_key ≠ "" ∧ env.conversation ≠ none) ∧
    List.Nodup [((4001 : Nat), "Authentication required"), (4001, "Invalid token"),
      (4001, "User not found"), (4001, "OpenAI API key not configured"),
      (4004, "Conversation not found"), (4003, "Access denied")] := by
  obtain ⟨tok, vr, ur, key, conv⟩ := env
  refine ⟨?_, ?_, ?_, ?_, ?_, ?_, ?_, by decide⟩
  · rintro (h | h) <;> simp only at h <;> subst h <;> simp [voice_chat_setup]
  · intro t ht hne hv
    simp only at ht hv; subst ht; subst hv
    simp [voice_chat_setup, hne]
  · intro t p ht hne hv hu
    simp only at ht hv hu; subst ht; subst hv; subst hu
    simp [voice_chat_setup, hne]
  · intro t p u ht hne hv hu hk
    simp only at ht hv hu hk; subst ht; subst hv; subst hu; subst hk
    simp [voice_chat_setup, hne]
  · intro t p u ht hne hv hu hk hc
    simp only at ht hv hu hc; subst ht; subst hv; subst hu; subst hc
    simp [voice_chat_setup, hne, hk]
  · intro t p u c ht hne hv hu hk hc hown
    simp only at ht hv hu hc; subst ht; subst hv; subst hu; subst hc
    simp [voice_chat_setup, hne, hk, hown]
  · intro h
    refine ⟨?_, ?_, ?_, ?_, ?_⟩
    · intro hbad; simp only at hbad; subst hbad
      simp [voice_chat_setup] at h
    · intro hbad; simp only at hbad; subst hbad
      rcases tok with _ | t
      · simp [voice_chat_setup] at h
      · by_cases ht : t = "" <;> simp [voice_chat_setup, ht] at h
    · intro hbad; simp only at hbad; subst hbad
      rcases tok with _ | t
      · simp [voice_chat_setup] at h
      · rcases vr with _ | p
        · by_cases ht : t = "" <;> simp [voice_chat_setup, ht] at h
        · by_cases ht : t = "" <;> simp [voice_chat_setup, ht] at h
    · intro hbad; simp only at hbad; subst hbad
      rcases tok with _ | t
      · simp [voice_chat_setup] at h
      · rcases vr with _ | p
        · by_cases ht : t = "" <;> simp [voice_chat_setup, ht] at h
        · rcases ur with _ | u
          · by_cases ht : t = "" <;> simp [voice_chat_setup, ht] at h
          · by_cases ht : t = "" <;> simp [voice_chat_setup, ht] at h
    · intro hbad; simp only at hbad; subst hbad
      rcases tok with _ | t
      · simp [voice_chat_setup] at h
      · rcases vr with _ | p
        · by_cases ht : t = "" <;> simp [voice_chat_setup, ht] at h
        · rcases ur with _ | u
          · by_cases ht : t = "" <;> simp [voice_chat_setup, ht] at h
          · by_cases ht : t = "" <;> by_cases hk : key = "" <;>
              simp [voice_chat_setup, ht, hk] at h

/-- Claim C5 witness: the ownership mismatch cause at a concrete
environment closes the connection with code 4003 and reason Access
denied. -/
theorem voice_setup_ownership_mismatch_witness :
    voice_chat_setup
        ⟨some "tok", some ⟨"u2"⟩, some ⟨"u2", "b@x", "hash2", "Bob", false, "2024-01-01"⟩,
          "sk-key", some ⟨"u1", "New Conversation", []⟩⟩ (fun u => u.id) =
      SetupOutcome.closed 4003 "Access denied" := by
  exact (voice_setup_failures_close_connection _ _).2.2.2.2.2.1
    "tok" ⟨"u2"⟩ ⟨"u2", "b@x", "hash2", "Bob", false, "2024-01-01"⟩ ⟨"u1", "New Conversation", []⟩
    rfl (by decide) rfl rfl (by decide) rfl (by decide)

/-- Claim C7: a stop_recording message arriving with no transcription
sub-connection and the session idle emits exactly one error event,
leaves the session state, the store and the recording flag unchanged,
invokes no council stage, and keeps the session loop running. -/
theorem stop_recording_without_session_is_noop (env : StopEnv) (s : SessionState)
    (st : Storage) (hc : s.realtime_client = none) (hr : s.is_recording = false) :
    stop_recording env s st =
      ⟨s, st, [VoiceEvent.error "No recording session active"], false, true⟩ ∧
    (∀ b64decode connect_ok,
      handle_message b64decode env connect_ok s st ClientMessage.stop_recording =
        stop_recording env s st) := by
  obtain ⟨ac, rc, ir⟩ := s
  simp only at hc hr; subst hc; subst hr
  exact ⟨rfl, fun _ _ => rfl⟩

/-- Claim C7 witness: evaluating at the initial session state. -/
theorem stop_recording_without_session_witness :
    stop_recording sampleStopEnv initialSessionState sampleStorage =
      ⟨initialSessionState, sampleStorage,
        [VoiceEvent.error "No recording session active"], false, true⟩ :=
  (stop_recording_without_session_is_noop sampleStopEnv initialSessionState
    sampleStorage rfl rfl).1

/-- Claim C8: while recording with an open sub-connection, an audio
message with a non-empty payload appends the decoded bytes as exactly
one new chunk, leaving every previously buffered chunk unchanged, and
forwards the same decoded bytes to the sub-connection; no event is
emitted, the store is untouched and the loop keeps running. -/
theorem audio_chunk_dual_write (b64decode : String → List Nat) (env : StopEnv)
    (connect_ok : Bool) (s : SessionState) (st : Storage) (data : String)
    (c : RealtimeClientState) (hc : s.realtime_client = some c)
    (hconn : c.connected = true) (hne : data ≠ "") :
    (handle_message b64decode env connect_ok s st (ClientMessage.audio data)).state.audio_chunks =
      s.audio_chunks ++ [b64decode data] ∧
    (handle_message b64decode env connect_ok s st (ClientMessage.audio data)).state.audio_chunks.take
        s.audio_chunks.length = s.audio_chunks ∧
    (handle_message b64decode env connect_ok s st (ClientMessage.audio data)).state.audio_chunks.length =
      s.audio_chunks.length + 1 ∧
    (handle_message b64decode env connect_ok s st (ClientMessage.audio data)).state.realtime_client =
      some { c with sent_audio := c.sent_audio ++ [b64decode data] } ∧
    (handle_message b64decode env connect_ok s st (ClientMessage.audio data)).storage = st ∧
    (handle_message b64decode env connect_ok s st (ClientMessage.audio data)).events = [] ∧
    (handle_message b64decode env connect_ok s st (ClientMessage.audio data)).keep_running = true := by
  simp [handle_message, send_audio, hc, hconn, hne, List.take_left]

/-- Claim C8 witness: a concrete audio message appended and forwarded. -/
theorem audio_chunk_dual_write_witness :
    (handle_message (fun _ => [7, 8]) sampleStopEnv true sampleRecordingState
        sampleStorage (ClientMessage.audio "Bwg=")).state.audio_chunks =
      sampleRecordingState.audio_chunks ++ [[7, 8]] ∧
    (handle_message (fun _ => [7, 8]) sampleStopEnv true sampleRecordingState
        sampleStorage (ClientMessage.audio "Bwg=")).state.realtime_client =
      some ⟨true, [[1, 2], [7, 8]]⟩ := by
  have h := audio_chunk_dual_write (fun _ => [7, 8]) sampleStopEnv true
    sampleRecordingState sampleStorage "Bwg=" ⟨true, [[1, 2]]⟩ rfl rfl (by decide)
  exact ⟨h.1, h.2.2.2.1⟩

/-- Claim C9: verify_token is total over every decode outcome — it never
lets an exception escape to the caller; it returns the decoded payload
when the token is validly signed and unexpired, and None when the decode
raises ExpiredSignatureError or any InvalidTokenError. -/
theorem verify_token_total (res : JwtDecodeOutcome) :
    (∃ r, verify_token res = Except.ok r) ∧
    (∀ p, res = JwtDecodeOutcome.ok p → verify_token res = Except.ok (some p)) ∧
    (res = JwtDecodeOutcome.expiredSignature → verify_token res = Except.ok none) ∧
    (∀ m, res = JwtDecodeOutcome.invalidToken m → verify_token res = Except.ok none) := by
  cases res <;> simp [verify_token]

/-- Claim C9 witness: the three outcome shapes at concrete values. -/
theorem verify_token_total_witness :
    verify_token (JwtDecodeOutcome.ok [("sub", "u1")]) = Except.ok (some [("sub", "u1")]) ∧
    verify_token JwtDecodeOutcome.expiredSignature = Except.ok none ∧
    verify_token (JwtDecodeOutcome.invalidToken "bad segment") = Except.ok none := by
  refine ⟨(verify_token_total _).2.1 _ rfl, (verify_token_total _).2.2.1 rfl,
    (verify_token_total _).2.2.2 "bad segment" rfl⟩

/-- Helper: looking up an index in the completion list of Stage 1 tasks
always finds that task, whatever the completion order brought first. -/
theorem find_completed_task (models : List String) (outcome : Nat → Except String String)
    (l : List Nat) (i : Nat) (hi : i ∈ l) :
    (l.map (fun j => (j, ModelAnswer.mk (models.getD j "") (outcome j)))).find?
        (fun p => p.1 == i) = some (i, ⟨models.getD i "", outcome i⟩) := by
  induction l with
  | nil => cases hi
  | cons j l ih =>
    rw [List.map_cons]
    by_cases hj : j = i
    · subst hj
      rw [List.find?_cons_of_pos _ (by simp)]
    · have hmem : i ∈ l := by
        rcases List.mem_cons.mp hi with h | h
        · exact absurd h.symm hj
        · exact h
      rw [List.find?_cons_of_neg _ (by simp [hj])]
      exact ih hmem

/-- Helper: filterMap is a map when the function is total on the list. -/
theorem filterMap_eq_map_of_some {α β : Type} (f : α → Option β) (g : α → β)
    (l : List α) (h : ∀ a ∈ l, f a = some (g a)) : l.filterMap f = l.map g := by
  induction l with
  | nil => rfl
  | cons a l ih =>
    rw [List.filterMap_cons, h a (List.mem_cons_self a l),
      ih (fun b hb => h b (List.mem_cons_of_mem a hb)), List.map_cons]

/-- Claim C2: for any completion order that settles every task exactly
the configured tasks, Stage 1 returns one ModelAnswer per configured
model, in configured order and independent of the completion order, each
entry carrying either the answer or the failure reason of that model. -/
theorem stage1_preserves_configured_order (models : List String)
    (outcome : Nat → Except String String) (sched : List Nat)
    (hperm : List.Perm sched (List.range models.length)) :
    stage1_collect_responses models outcome sched =
      (List.range models.length).map (fun i => ⟨models.getD i "", outcome i⟩) ∧
    (stage1_collect_responses models outcome sched).length = models.length ∧
    (∀ i, i < models.length →
      (stage1_collect_responses models outcome sched).getD i ⟨"", Except.ok ""⟩ =
        ⟨models.getD i "", outcome i⟩) ∧
    (∀ ma, ma ∈ stage1_collect_responses models outcome sched →
      (∃ a, ma.result = Except.ok a) ∨ ∃ e, ma.result = Except.error e) := by
  have hmain : stage1_collect_responses models outcome sched =
      (List.range models.length).map (fun i => ⟨models.getD i "", outcome i⟩) := by
    unfold stage1_collect_responses
    refine filterMap_eq_map_of_some _ _ _ ?_
    intro i hi
    have hmem : i ∈ sched := (hperm.mem_iff).mpr hi
    rw [find_completed_task models outcome sched i hmem]
    rfl
  refine ⟨hmain, ?_, ?_, ?_⟩
  · rw [hmain]; simp
  · intro i hlt
    rw [hmain]
    rw [List.getD_eq_getElem?_getD, List.getElem?_map, List.getElem?_range hlt]
    rfl
  · intro ma _
    cases h : ma.result with
    | ok a => exact Or.inl ⟨a, rfl⟩
    | error e => exact Or.inr ⟨e, rfl⟩

/-- Claim C2 witness: three configured models with the middle task
failing, completing in the order third, first, second; the result is in
configured order with the failure recorded in place. -/
theorem stage1_order_witness :
    List.Perm [2, 0, 1] (List.range sampleModels.length) ∧
    stage1_collect_responses sampleModels sampleOutcome [2, 0, 1] =
      (List.range sampleModels.length).map
        (fun i => ⟨sampleModels.getD i "", sampleOutcome i⟩) ∧
    stage1_collect_responses sampleModels sampleOutcome [2, 0, 1] =
      [⟨"m1", Except.ok "answer"⟩, ⟨"m2", Except.error "timeout"⟩,
        ⟨"m3", Except.ok "answer"⟩] := by
  refine ⟨by decide, (stage1_preserves_configured_order sampleModels sampleOutcome
    [2, 0, 1] (by decide)).1, by decide⟩

/-- Claim C6: when the transcription that arrives after stop_recording
is empty or whitespace only, the session emits exactly one error event
with the no speech detected message, invokes no council stage, leaves
the store untouched, closes the transcription sub-connection, clears the
recording flag, and keeps accepting client messages. -/
theorem empty_transcription_skips_council (env : StopEnv) (s : SessionState)
    (st : Storage) (c : RealtimeClientState) (t : Option String)
    (hc : s.realtime_client = some c) (hcommit : env.commit = Except.ok ())
    (ht : env.transcription = Except.ok t) (hns : no_speech t = true) :
    stop_recording env s st =
      ⟨{ s with is_recording := false, realtime_client := none }, st,
        [VoiceEvent.error "No speech detected"], false, true⟩ ∧
    (∀ b64decode connect_ok,
      handle_message b64decode env connect_ok s st ClientMessage.stop_recording =
        stop_recording env s st) := by
  refine ⟨?_, fun _ _ => rfl⟩
  simp [stop_recording, hc, hcommit, ht, hns]

/-- Claim C6 witness: a whitespace-only transcription at a concrete
recording state. -/
theorem empty_transcription_witness :
    no_speech (some "   ") = true ∧
    stop_recording sampleStopEnv sampleRecordingState sampleStorage =
      ⟨⟨[[1, 2]], none, false⟩, sampleStorage,
        [VoiceEvent.error "No speech detected"], false, true⟩ := by
  refine ⟨by decide, (empty_transcription_skips_council sampleStopEnv
    sampleRecordingState sampleStorage ⟨true, [[1, 2]]⟩ (some "   ")
    rfl rfl rfl (by decide)).1⟩

/-- Helper: reading a conversation back after updating it yields the
updated conversation. -/
theorem get_conversation_update_self (st : Storage) (cid : String)
    (f : Conversation → Conversation) :
    get_conversation (update_conversation st cid f) cid =
      (get_conversation st cid).map f := by
  induction st with
  | nil => rfl
  | cons p st ih =>
    by_cases h : p.1 = cid
    · simp [get_conversation, update_conversation, List.find?_cons, h]
    · simpa [get_conversation, update_conversation, List.find?_cons, h] using ih

/-- Claim C4: the atomic send-message endpoint returns 404 when the
conversation identifier does not resolve and 403 when the conversation
belongs to another user, in both cases leaving the store untouched; when
the preconditions hold it returns the stage1, stage2 and stage3 payloads
plus the ranking metadata in one structured response, with the user and
assistant messages appended to the stored conversation. -/
theorem send_message_precondition_failures (st : Storage) (cid uid content : String)
    (council : CouncilOutcome) (title : String) :
    (get_conversation st cid = none →
      send_message st cid uid content council title =
        (st, Except.error ⟨404, "Conversation not found"⟩)) ∧
    (∀ conv, get_conversation st cid = some conv → conv.user_id ≠ uid →
      send_message st cid uid content council title =
        (st, Except.error ⟨403, "Access denied"⟩)) ∧
    (∀ conv, get_conversation st cid = some conv → conv.user_id = uid →
      (send_message st cid uid content council title).2 =
        Except.ok ⟨council.stage1, council.stage2, council.stage3,
          council.label_to_model, council.aggregate_rankings⟩ ∧
      get_conversation (send_message st cid uid content council title).1 cid =
        some { conv with
          title := if conv.messages.length == 0 then title else conv.title,
          messages := conv.messages ++
            [Message.user content,
              Message.assistant council.stage1 council.stage2 council.stage3] }) := by
  refine ⟨?_, ?_, ?_⟩
  · intro h
    simp [send_message, h]
  · intro conv h hne
    simp [send_message, h, hne]
  · intro conv h he
    constructor
    · simp [send_message, h, he]
    · have hmain : (send_message st cid uid content council title).1 =
          add_assistant_message
            (if conv.messages.length == 0 then
              update_conversation_title (add_user_message st cid content) cid title
            else add_user_message st cid content)
            cid council.stage1 council.stage2 council.stage3 := by
        simp [send_message, h, he]
      rw [hmain]
      by_cases hlen : (conv.messages.length == 0) = true
      · rw [if_pos hlen, if_pos hlen]
        simp [add_assistant_message, add_user_message, update_conversation_title,
          get_conversation_update_self, h]
      · rw [if_neg hlen, if_neg hlen]
        simp [add_assistant_message, add_user_message,
          get_conversation_update_self, h]

/-- Claim C4 witness: a found and owned conversation at concrete values,
plus the 404 and 403 paths at concrete inputs. -/
theorem send_message_witness :
    (send_message sampleStorage "c1" "u1" "hello" sampleCouncil "T").2 =
      Except.ok ⟨sampleCouncil.stage1, sampleCouncil.stage2, sampleCouncil.stage3,
        sampleCouncil.label_to_model, sampleCouncil.aggregate_rankings⟩ ∧
    get_conversation (send_message sampleStorage "c1" "u1" "hello" sampleCouncil "T").1 "c1" =
      some ⟨"u1", "T", [Message.user "hello",
        Message.assistant sampleCouncil.stage1 sampleCouncil.stage2 sampleCouncil.stage3]⟩ ∧
    send_message sampleStorage "missing" "u1" "hello" sampleCouncil "T" =
      (sampleStorage, Except.error ⟨404, "Conversation not found"⟩) ∧
    send_message sampleStorage "c1" "u2" "hello" sampleCouncil "T" =
      (sampleStorage, Except.error ⟨403, "Access denied"⟩) := by
  have h := (send_message_precondition_failures sampleStorage "c1" "u1" "hello"
    sampleCouncil "T").2.2 ⟨"u1", "New Conversation", []⟩ rfl rfl
  refine ⟨h.1, h.2, ?_, ?_⟩
  · exact (send_message_precondition_failures sampleStorage "missing" "u1" "hello"
      sampleCouncil "T").1 rfl
  · exact (send_message_precondition_failures sampleStorage "c1" "u2" "hello"
      sampleCouncil "T").2.1 ⟨"u1", "New Conversation", []⟩ rfl (by decide)

/-- Helper: filtering a dictionary on keys different from k leaves no
entry with key k. -/
theorem key_removed_by_filter (d : List (String × JsonValue)) (k : String) :
    k ∉ (d.filter (fun kv => kv.1 ≠ k)).map Prod.fst := by
  induction d with
  | nil => simp
  | cons p d ih =>
    by_cases h : p.1 = k
    · simp [List.filter_cons, h]
    · rw [List.filter_cons, if_pos (by simp [h])]
      simp only [List.map_cons, List.mem_cons, not_or]
      exact ⟨fun hk => h hk.symm, ih⟩

/-- Claim C10: no public read path exposes a stored password hash — the
login response strips the password_hash entry, get_user_by_id and
list_users return dictionaries without a password_hash key, and only the
internal get_user_by_email lookup used for password verification
includes it. -/
theorem password_hash_not_exposed (db : UsersDb) :
    (∀ email password checkpw make_token r,
      login db email password checkpw make_token = Except.ok r →
      "password_hash" ∉ r.user.map Prod.fst) ∧
    (∀ uid d, get_user_by_id db uid = some d →
      "password_hash" ∉ d.map Prod.fst) ∧
    (∀ d, d ∈ list_users db → "password_hash" ∉ d.map Prod.fst) ∧
    (∀ email d, get_user_by_email db email = some d →
      "password_hash" ∈ d.map Prod.fst) := by
  refine ⟨?_, ?_, ?_, ?_⟩
  · intro email password checkpw make_token r hr
    cases hfind : get_user_by_email db email with
    | none => simp [login, hfind] at hr
    | some user =>
      simp only [login, hfind] at hr
      by_cases hcp : checkpw password (dictStr user "password_hash") = true
      · rw [if_pos hcp] at hr
        cases hr
        exact key_removed_by_filter user "password_hash"
      · rw [if_neg hcp] at hr; simp at hr
  · intro uid d hd
    unfold get_user_by_id at hd
    cases hfind : db.find? (fun r => r.id == uid) with
    | none => rw [hfind] at hd; simp at hd
    | some r =>
      rw [hfind] at hd
      simp at hd
      subst hd
      simp [row_public_dict]
  · intro d hd
    unfold list_users at hd
    rcases List.mem_map.mp hd with ⟨r, _, rfl⟩
    simp [row_public_dict]
  · intro email d hd
    unfold get_user_by_email at hd
    cases hfind : db.find? (fun r => r.email == email) with
    | none => rw [hfind] at hd; simp at hd
    | some r =>
      rw [hfind] at hd
      simp at hd
      subst hd
      simp [row_full_dict]

/-- Claim C10 witness: concrete database reads — a successful login
response without the hash, a public lookup without the hash, and the
internal email lookup carrying it. -/
theorem password_hash_not_exposed_witness :
    "password_hash" ∉
      (LoginResult.mk "tok"
        [("id", JsonValue.str "u1"), ("email", JsonValue.str "a@x"),
          ("name", JsonValue.str "Alice"), ("is_admin", JsonValue.bool true),
          ("created_at", JsonValue.str "2024-01-02")]).user.map Prod.fst ∧
    "password_hash" ∉
      (row_public_dict ⟨"u1", "a@x", "hash1", "Alice", true, "2024-01-02"⟩).map Prod.fst ∧
    "password_hash" ∈
      (row_full_dict ⟨"u1", "a@x", "hash1", "Alice", true, "2024-01-02"⟩).map Prod.fst := by
  refine ⟨(password_hash_not_exposed sampleDb).1 "a@x" "pw" (fun _ _ => true)
      (fun _ _ _ => "tok") _ rfl,
    (password_hash_not_exposed sampleDb).2.1 "u1" _ rfl,
    (password_hash_not_exposed sampleDb).2.2.2 "a@x" _ rfl⟩

/-- Claim C1: every streamed event sequence has its stage events in
exactly the canonical order stage1_start, stage1_complete, stage2_start,
stage2_complete, stage3_start, stage3_complete as an initial segment,
and ends with exactly one terminal event — complete on success, a single
error event carrying a message when any awaited call raises — never a
silent close with no terminal event; on a turn where nothing raises the
six stage events all appear in order, the stream ends with complete, and
the stage2_complete event carries the label map and aggregate rankings
metadata. -/
theorem stream_event_sequence (env : StreamEnv) :
    isInitialSegmentOf (stageTags (event_generator env)) [0, 1, 2, 3, 4, 5] = true ∧
    ((event_generator env).filter isTerminal).length = 1 ∧
    isTerminal ((event_generator env).getLastD StreamEvent.complete) = true ∧
    event_generator env ≠ [] ∧
    (streamSuccess env = true →
      stageTags (event_generator env) = [0, 1, 2, 3, 4, 5] ∧
      (event_generator env).getLastD (StreamEvent.error "") = StreamEvent.complete ∧
      (match env.stage2 with
       | Except.ok (s2, l2m) =>
         StreamEvent.stage2_complete s2 l2m (calculate_aggregate_rankings s2 l2m) ∈
           event_generator env
       | Except.error _ => True)) := by
  obtain ⟨fm, au, s1, s2, s3, ti, ut, aa⟩ := env
  rcases au with e | u <;> rcases s1 with e1 | v1 <;> rcases s2 with e2 | ⟨s2v, l2m⟩ <;>
    rcases s3 with e3 | v3 <;> rcases fm <;> rcases ti with e4 | v4 <;>
    rcases ut with e5 | u5 <;> rcases aa with e6 | u6 <;>
    simp [event_generator, event_generator_title, event_generator_finish,
      stageTags, stageTag, isTerminal, isInitialSegmentOf, streamSuccess,
      Except.toBool, List.getLastD, List.filter_cons]

/-- Claim C1 witness: the fully successful environment emits the six
stage events in order, the stage2_complete event carrying the metadata,
and ends with complete. -/
theorem stream_event_sequence_witness :
    streamSuccess sampleStreamEnv = true ∧
    stageTags (event_generator sampleStreamEnv) = [0, 1, 2, 3, 4, 5] ∧
    (event_generator sampleStreamEnv).getLastD (StreamEvent.error "") =
      StreamEvent.complete := by
  have h := (stream_event_sequence sampleStreamEnv).2.2.2.2 rfl
  exact ⟨rfl, h.1, h.2.1⟩
